import Mathlib

/-!
Shallow embedding of the lead-ingestion pipeline:

* `src/fetcher.py`   — `fetch_leads` (paged retrying fetch loop),
  `normalize_lead` (raw → flat record) and the dedup loop in `main`;
* `src/utils/db.py`  — `LeadDB.is_seen`, `LeadDB.mark_seen` over the SQLite
  table `seen_leads (lead_id TEXT PRIMARY KEY, name, email, phone,
  created_time)`.

Python `None` is `Option.none`; a JSON value that may be absent is an
`Option`.  Python truthiness on strings (`None` and `""` are falsy) is made
explicit.  The SQLite store is a list of rows in insertion order; SQL `NULL`
comparison semantics (`col = ?` is never true when the stored column is
`NULL`, and `lead_id = ?` is never true when the bound parameter is `NULL`)
are modelled explicitly in `rowMatches`.
-/

namespace Leads

/-- Python truthiness of an optional string: `None` and `""` are falsy. -/
def truthyOpt : Option String → Bool
  | none => false
  | some s => s ≠ ""

/-- Python `x or ""` on an optional string (used in `main` for query params). -/
def pyStr (o : Option String) : String := o.getD ""

/-- Python `a or b` on optional strings (falsy = `None` or `""`). -/
def pyOr (a b : Option String) : Option String :=
  if truthyOpt a then a else b

/-- Python `s.strip()`: remove leading and trailing whitespace. -/
def pyStrip (s : String) : String :=
  ⟨((s.data.dropWhile Char.isWhitespace).reverse.dropWhile
      Char.isWhitespace).reverse⟩

/-- One entry of a raw record's `field_data` list: `item.get("name")` and
`item.get("values")` (a list whose elements may be JSON `null`). -/
structure FieldEntry where
  name : Option String
  values : List (Option String)
deriving DecidableEq, Repr

/-- A raw lead as delivered by the API: `raw.get("id")`,
`raw.get("created_time")`, `raw.get("field_data", [])`. -/
structure RawRecord where
  id : Option String
  created_time : Option String
  field_data : List FieldEntry
deriving DecidableEq, Repr

/-- `(item.get("values") or [None])[0]`: the first value of a field, `none`
when the list is empty/absent or its head is `null`. -/
def firstVal (vs : List (Option String)) : Option String :=
  (vs.head?).bind id

/-- The dict comprehension in `normalize_lead` followed by `fields.get(k)`:
entries with a falsy `name` are dropped, later entries with the same name
overwrite earlier ones, and a missing key and a stored `None` value are
indistinguishable (both give Python `None`). -/
def fieldsGet (items : List FieldEntry) (k : String) : Option String :=
  items.foldl
    (fun acc it =>
      match it.name with
      | some nm => if nm ≠ "" ∧ nm = k then firstVal it.values else acc
      | none => acc)
    none

/-- The flat dict produced by `normalize_lead`. -/
structure FlatRecord where
  lead_id : Option String
  name : Option String
  email : Option String
  phone : Option String
  created_time : Option String
deriving DecidableEq, Repr

/-- `normalize_lead` from `src/fetcher.py` (lines 126–159). -/
def normalize_lead (raw : RawRecord) : Option FlatRecord :=
  let fullName := fieldsGet raw.field_data "full_name"
  let name : Option String :=
    if truthyOpt fullName then fullName
    else
      let first := pyStr (fieldsGet raw.field_data "first_name")
      let last := pyStr (fieldsGet raw.field_data "last_name")
      let combined := pyStrip (first ++ " " ++ last)
      if combined = "" then none else some combined
  let email := fieldsGet raw.field_data "email"
  let phone :=
    pyOr (pyOr (fieldsGet raw.field_data "phone")
               (fieldsGet raw.field_data "phone_number"))
         (fieldsGet raw.field_data "phone_number_ext")
  if ¬ truthyOpt email ∧ ¬ truthyOpt phone then none
  else some ⟨raw.id, name, email, phone, raw.created_time⟩

/-- One persisted row of the `seen_leads` table.  `mark_seen` never inserts
a falsy `lead_id`, so the key is a plain string; the other columns are
nullable. -/
structure Row where
  lead_id : String
  name : Option String
  email : Option String
  phone : Option String
  created_time : Option String
deriving DecidableEq, Repr

/-- The `seen_leads` table, rows in insertion (`rowid`) order. -/
abbrev Store := List Row

/-- The SQL predicate `lead_id=? OR email=? OR phone=?` of `is_seen` on one
row.  The `lead_id` parameter may be bound to `NULL` (Python `None` from
`main`), in which case that disjunct is never true; a stored `NULL` column
never equals a string parameter. -/
def rowMatches (qid : Option String) (qe qp : String) (r : Row) : Bool :=
  (match qid with
   | some s => r.lead_id = s
   | none => false)
  || r.email = some qe || r.phone = some qp

/-- `LeadDB.is_seen` from `src/utils/db.py` (lines 49–57). -/
def is_seen (db : Store) (qid : Option String) (qe qp : String) : Bool :=
  db.any (rowMatches qid qe qp)

/-- `LeadDB.mark_seen` from `src/utils/db.py` (lines 59–93), dict branch
(the one the pipeline uses): no-op on a falsy `lead_id`, otherwise
`INSERT OR IGNORE` keyed by the `lead_id` primary key. -/
def mark_seen (db : Store) (n : FlatRecord) : Store :=
  match n.lead_id with
  | none => db
  | some l =>
    if l = "" then db
    else if db.any (fun r => r.lead_id = l) then db
    else db ++ [⟨l, n.name, n.email, n.phone, n.created_time⟩]

/-- Lines 352–363 of `main`: the dedup step applied to one normalized
record (the state is the store plus the `new_leads` accumulator). -/
def dedupStep (st : Store × List FlatRecord) (n : FlatRecord) :
    Store × List FlatRecord :=
  if is_seen st.1 n.lead_id (pyStr n.email) (pyStr n.phone) then st
  else (mark_seen st.1 n, st.2 ++ [n])

/-- Lines 346–363 of `main`, one raw record: normalize, skip on rejection,
otherwise dedup. -/
def processOne (st : Store × List FlatRecord) (raw : RawRecord) :
    Store × List FlatRecord :=
  match normalize_lead raw with
  | none => st
  | some n => dedupStep st n

/-- One run of the ingestion loop of `main` (live mode / no `--since`
filter) over the concatenation of the fetched pages, returning the final
store and the `new_leads` list. -/
def processRun (db : Store) (raws : List RawRecord) :
    Store × List FlatRecord :=
  raws.foldl processOne (db, [])

/-! ## The paged fetch loop (`fetch_leads`, `src/fetcher.py` lines 60–123)

One HTTP attempt either produces a response (status code, optional
`Retry-After` header, JSON body) or fails at the connection level.  The
network is modelled as the finite list of attempt outcomes the server
produces, consumed one per request. -/

/-- One page of the paged JSON response: the `data` array and
`paging.next`. -/
structure PageData where
  data : List RawRecord
  next : Option String
deriving DecidableEq, Repr

/-- An HTTP response: status code, optional `Retry-After` header and JSON
body.  The header only determines how long the loop sleeps, which is not
observable here; it is kept for fidelity. -/
structure HttpResp where
  status : Nat
  retryAfter : Option String
  body : PageData
deriving DecidableEq, Repr

/-- Outcome of one HTTP attempt: a response, or a request-level failure
(connection error / timeout), which `requests` raises as a
`RequestException`. -/
inductive Attempt where
  | resp (r : HttpResp)
  | connFail
deriving DecidableEq, Repr

/-- Result of the inner `while True` retry loop for one page: the page is
yielded (with the unconsumed attempts), or the loop re-raises to the caller
(fatal), or the model ran out of attempt outcomes. -/
inductive PageStep where
  | yield (p : PageData) (rest : List Attempt)
  | fatal
  | stuck
deriving DecidableEq, Repr

/-- The inner `while True` loop of `fetch_leads` (lines 84–118) for a single
page, starting at retry counter `attempt`:

* status ≥ 500 raises `HTTPError`, caught by the generic handler: retry
  while `attempt < max_retries`, else re-raise (fatal);
* status 429 sleeps, increments `attempt`, and when `attempt > max_retries`
  calls `raise_for_status()`, whose `HTTPError` the generic handler
  re-raises (fatal) since `attempt < max_retries` fails;
* any other 4xx raises via `raise_for_status()`, caught by the generic
  handler like a connection failure;
* a 2xx/3xx response breaks out of the loop with the page body. -/
def fetchPage (m : Nat) : Nat → List Attempt → PageStep
  | _, [] => .stuck
  | attempt, .connFail :: rest =>
      if attempt < m then fetchPage m (attempt + 1) rest else .fatal
  | attempt, .resp r :: rest =>
      if 500 ≤ r.status then
        if attempt < m then fetchPage m (attempt + 1) rest else .fatal
      else if r.status = 429 then
        if attempt + 1 > m then .fatal
        else fetchPage m (attempt + 1) rest
      else if 400 ≤ r.status then
        if attempt < m then fetchPage m (attempt + 1) rest else .fatal
      else .yield r.body rest

/-- Result of the whole generator: the batches (`data` arrays, one per
page, in order) yielded to the consumer before it returned (`done`), raised
(`fatal`), or the model ran out of attempt outcomes (`stuck`). -/
inductive FetchResult where
  | done (batches : List (List RawRecord))
  | fatal (batches : List (List RawRecord))
  | stuck (batches : List (List RawRecord))
deriving DecidableEq, Repr

/-- Both loops of `fetch_leads` (lines 83–123) as one state machine over
the attempt list: `attempt` is the inner loop's retry counter and `acc` the
batches already yielded to the consumer.  The inner-loop cases are those of
`fetchPage`; on a successful response `data.get("data", [])` is yielded,
the counter resets to 0 for the next page, and the outer `while url` loop
continues exactly when `paging.get("next")` is truthy (lines 119–123). -/
def fetchRun (m : Nat) : Nat → List (List RawRecord) → List Attempt → FetchResult
  | _, acc, [] => .stuck acc
  | attempt, acc, .connFail :: rest =>
      if attempt < m then fetchRun m (attempt + 1) acc rest else .fatal acc
  | attempt, acc, .resp r :: rest =>
      if 500 ≤ r.status then
        if attempt < m then fetchRun m (attempt + 1) acc rest else .fatal acc
      else if r.status = 429 then
        if attempt + 1 > m then .fatal acc
        else fetchRun m (attempt + 1) acc rest
      else if 400 ≤ r.status then
        if attempt < m then fetchRun m (attempt + 1) acc rest else .fatal acc
      else
        if truthyOpt r.body.next then fetchRun m 0 (acc ++ [r.body.data]) rest
        else .done (acc ++ [r.body.data])

/-- The whole generator, as `main` iterates it: counter at 0, no page
yielded yet. -/
def fetchLoop (m : Nat) (resps : List Attempt) : FetchResult :=
  fetchRun m 0 [] resps

/-- Modelled from the spec: the same per-page retry loop, but with the
retry count for 429 responses tracked separately from the count of generic
transient failures, both bounded by the same `max_retries` (§4.1: "retry
count for 429 is tracked separately from generic failures but shares the
same maximum bound").  Used only to compare against `fetchPage`. -/
def fetchPageSep (m : Nat) : Nat → Nat → List Attempt → PageStep
  | _, _, [] => .stuck
  | gen, cnt429, .connFail :: rest =>
      if gen < m then fetchPageSep m (gen + 1) cnt429 rest else .fatal
  | gen, cnt429, .resp r :: rest =>
      if 500 ≤ r.status then
        if gen < m then fetchPageSep m (gen + 1) cnt429 rest else .fatal
      else if r.status = 429 then
        if cnt429 + 1 > m then .fatal
        else fetchPageSep m gen (cnt429 + 1) rest
      else if 400 ≤ r.status then
        if gen < m then fetchPageSep m (gen + 1) cnt429 rest else .fatal
      else .yield r.body rest

/-- A successful response carrying page `p`. -/
def okAttempt (p : PageData) : Attempt := .resp ⟨200, none, p⟩

/-- A 500 Internal Server Error response. -/
def err500 : Attempt := .resp ⟨500, none, ⟨[], none⟩⟩

/-- A 429 rate-limited response without a `Retry-After` header. -/
def rate429 : Attempt := .resp ⟨429, none, ⟨[], none⟩⟩

/-! ## Derived definitions used by the proofs -/

/-- The store component of `processOne` on its own (the evolution of the
store does not depend on the `new_leads` accumulator). -/
def storeStep (db : Store) (raw : RawRecord) : Store :=
  match normalize_lead raw with
  | none => db
  | some n =>
    if is_seen db n.lead_id (pyStr n.email) (pyStr n.phone) then db
    else mark_seen db n

/-- A raw record is id-safe when it is rejected by the normalizer or its
normalized form carries a truthy (present, non-empty) `lead_id`. -/
def idOK (raw : RawRecord) : Bool :=
  match normalize_lead raw with
  | none => true
  | some n => truthyOpt n.lead_id

end Leads

namespace Leads

/-! ## Helper lemmas about the store -/

theorem isSeen_append_left {db : Store} (t : Store) {qid : Option String}
    {qe qp : String} (h : is_seen db qid qe qp = true) :
    is_seen (db ++ t) qid qe qp = true := by
  simp only [is_seen, List.any_append, Bool.or_eq_true]
  exact Or.inl h

theorem normalize_lead_lead_id {raw : RawRecord} {n : FlatRecord}
    (h : normalize_lead raw = some n) : n.lead_id = raw.id := by
  simp only [normalize_lead] at h
  split at h
  · exact absurd h (by simp)
  · cases h; rfl

/-- If the full OR-query is unseen, in particular no stored row has the
queried `lead_id`. -/
theorem no_row_of_not_seen {db : Store} {l : String} {qe qp : String}
    (hs : is_seen db (some l) qe qp = false) :
    db.any (fun r => r.lead_id = l) = false := by
  rw [Bool.eq_false_iff]
  intro hc
  rcases List.any_eq_true.mp hc with ⟨r, hr, hrl⟩
  have : is_seen db (some l) qe qp = true :=
    List.any_eq_true.mpr ⟨r, hr, by simp [rowMatches, hrl]⟩
  rw [hs] at this
  cases this

/-- An unseen record with a truthy id is inserted at the end of the table. -/
theorem markSeen_insert {db : Store} {n : FlatRecord} {l : String}
    (hl : n.lead_id = some l) (hl' : l ≠ "")
    (hs : is_seen db n.lead_id (pyStr n.email) (pyStr n.phone) = false) :
    mark_seen db n = db ++ [⟨l, n.name, n.email, n.phone, n.created_time⟩] := by
  rw [hl] at hs
  have hany := no_row_of_not_seen hs
  simp [mark_seen, hl, hl', hany]

theorem markSeen_suffix (db : Store) (n : FlatRecord) :
    ∃ t, mark_seen db n = db ++ t := by
  cases h : n.lead_id with
  | none => exact ⟨[], by simp [mark_seen, h]⟩
  | some l =>
    by_cases h1 : l = ""
    · exact ⟨[], by simp [mark_seen, h, h1]⟩
    · by_cases h2 : db.any (fun r => r.lead_id = l) = true
      · exact ⟨[], by simp [mark_seen, h, h1, h2]⟩
      · exact ⟨[⟨l, n.name, n.email, n.phone, n.created_time⟩],
          by simp [mark_seen, h, h1, h2]⟩

theorem storeStep_suffix (db : Store) (raw : RawRecord) :
    ∃ t, storeStep db raw = db ++ t := by
  unfold storeStep
  cases h : normalize_lead raw with
  | none => exact ⟨[], by simp⟩
  | some n =>
    by_cases hs : is_seen db n.lead_id (pyStr n.email) (pyStr n.phone) = true
    · exact ⟨[], by simp [hs]⟩
    · rcases markSeen_suffix db n with ⟨t, ht⟩
      exact ⟨t, by simp [hs, ht]⟩

theorem isSeen_mono_fold {qid : Option String} {qe qp : String} :
    ∀ (rs : List RawRecord) (db : Store),
      is_seen db qid qe qp = true →
      is_seen (List.foldl storeStep db rs) qid qe qp = true := by
  intro rs
  induction rs with
  | nil => intro db h; simpa using h
  | cons r rs ih =>
    intro db h
    rw [List.foldl_cons]
    apply ih
    rcases storeStep_suffix db r with ⟨t, ht⟩
    rw [ht]
    exact isSeen_append_left t h

/-- After the step that processes a record with a truthy id, that record's
own identity query is seen. -/
theorem isSeen_after_step {db : Store} {raw : RawRecord} {n : FlatRecord}
    (hn : normalize_lead raw = some n) {l : String}
    (hl : n.lead_id = some l) (hl' : l ≠ "") :
    is_seen (storeStep db raw) n.lead_id (pyStr n.email) (pyStr n.phone)
      = true := by
  unfold storeStep
  rw [hn]
  dsimp only
  by_cases hs : is_seen db n.lead_id (pyStr n.email) (pyStr n.phone) = true
  · simp [hs]
  · have hs' : is_seen db n.lead_id (pyStr n.email) (pyStr n.phone) = false :=
      Bool.eq_false_iff.mpr hs
    rw [if_neg (by simp [hs']), markSeen_insert hl hl' hs']
    apply List.any_eq_true.mpr
    refine ⟨⟨l, n.name, n.email, n.phone, n.created_time⟩, by simp, ?_⟩
    simp [rowMatches, hl]

theorem processOne_fst (db : Store) (acc : List FlatRecord) (raw : RawRecord) :
    (processOne (db, acc) raw).1 = storeStep db raw := by
  unfold processOne storeStep dedupStep
  cases h : normalize_lead raw with
  | none => rfl
  | some n => dsimp only; split <;> rfl

theorem foldl_processOne_fst :
    ∀ (rs : List RawRecord) (db : Store) (acc : List FlatRecord),
      (List.foldl processOne (db, acc) rs).1 = List.foldl storeStep db rs := by
  intro rs
  induction rs with
  | nil => intro db acc; rfl
  | cons r rs ih =>
    intro db acc
    rw [List.foldl_cons, List.foldl_cons]
    have h1 : processOne (db, acc) r
        = (storeStep db r, (processOne (db, acc) r).2) := by
      rw [← processOne_fst db acc r]
    rw [h1]
    exact ih _ _

/-- After one run, every record of the run that normalizes (and whose id is
truthy, per `idOK`) is seen in the resulting store. -/
theorem good_after_run :
    ∀ (rs : List RawRecord) (db : Store), rs.all idOK = true →
      ∀ raw ∈ rs, ∀ n : FlatRecord, normalize_lead raw = some n →
        is_seen (List.foldl storeStep db rs) n.lead_id
          (pyStr n.email) (pyStr n.phone) = true := by
  intro rs
  induction rs with
  | nil => intro db _ raw hraw; exact absurd hraw (List.not_mem_nil raw)
  | cons r rs ih =>
    intro db hall raw hmem n hn
    have hall' : idOK r = true ∧ rs.all idOK = true := by
      simpa [List.all_cons, Bool.and_eq_true] using hall
    rw [List.foldl_cons]
    rcases List.mem_cons.mp hmem with rfl | hmem'
    · have hid : truthyOpt n.lead_id = true := by
        have := hall'.1
        simpa [idOK, hn] using this
      cases hli : n.lead_id with
      | none => rw [hli] at hid; cases hid
      | some l =>
        have hl' : l ≠ "" := by
          rw [hli] at hid
          simpa [truthyOpt] using hid
        rw [← hli]
        exact isSeen_mono_fold rs _ (isSeen_after_step hn hli hl')
    · exact ih (storeStep db r) hall'.2 raw hmem' n hn

/-- A run in which every normalizing record is already seen changes nothing
and emits nothing. -/
theorem run_all_seen :
    ∀ (rs : List RawRecord) (db : Store) (acc : List FlatRecord),
      (∀ raw ∈ rs, ∀ n : FlatRecord, normalize_lead raw = some n →
        is_seen db n.lead_id (pyStr n.email) (pyStr n.phone) = true) →
      List.foldl processOne (db, acc) rs = (db, acc) := by
  intro rs
  induction rs with
  | nil => intro db acc _; rfl
  | cons r rs ih =>
    intro db acc h
    rw [List.foldl_cons]
    have hstep : processOne (db, acc) r = (db, acc) := by
      unfold processOne
      cases hn : normalize_lead r with
      | none => rfl
      | some n =>
        have := h r (List.mem_cons_self r rs) n hn
        simp [dedupStep, this]
    rw [hstep]
    exact ih db acc (fun raw hm n hn => h raw (List.mem_cons_of_mem r hm) n hn)

end Leads

namespace Leads

/-! ## Claim theorems: normalizer and identity store -/

/-- Claim C9: the raw record with id `L1`, created time
`2025-07-01T00:00:00Z` and fields `email = a@x.com`, `first_name = Ann`
normalizes to the flat record with `lead_id = L1`, `name = Ann`,
`email = a@x.com`, absent phone and the same created time. -/
theorem C9_concrete_scenario :
    normalize_lead
      ⟨some "L1", some "2025-07-01T00:00:00Z",
        [⟨some "email", [some "a@x.com"]⟩, ⟨some "first_name", [some "Ann"]⟩]⟩
      = some ⟨some "L1", some "Ann", some "a@x.com", none,
          some "2025-07-01T00:00:00Z"⟩ := by
  decide

/-- Claim C6: `mark_seen` is an idempotent insert keyed by id — marking the
same record twice equals marking it once; if the record's id is absent the
call leaves the store unchanged; and if a row with the record's id already
exists the call is a no-op, so the stored fields are never overwritten by a
later call with the same id. -/
theorem C6_mark_seen_idempotent_insert (db : Store) (n : FlatRecord)
    (l : String) :
    mark_seen (mark_seen db n) n = mark_seen db n ∧
    (n.lead_id = none → mark_seen db n = db) ∧
    (n.lead_id = some l → db.any (fun r => r.lead_id = l) = true →
      mark_seen db n = db) := by
  refine ⟨?_, ?_, ?_⟩
  · cases h : n.lead_id with
    | none => simp [mark_seen, h]
    | some k =>
      by_cases h1 : k = ""
      · simp [mark_seen, h, h1]
      · by_cases h2 : db.any (fun r => r.lead_id = k) = true
        · simp [mark_seen, h, h1, h2]
        · simp [mark_seen, h, h1, h2, List.any_append]
  · intro h; simp [mark_seen, h]
  · intro h hex
    by_cases h1 : l = "" <;> simp [mark_seen, h, h1, hex]

/-- Witness for C6: a second call with id `L1` but different name, email,
phone and created time leaves the stored `L1` row untouched. -/
theorem C6_mark_seen_idempotent_insert_witness :
    mark_seen [⟨"L1", some "Ann", some "a@x.com", none, some "T1"⟩]
        ⟨some "L1", some "Bob", some "b@y.com", some "7", some "T2"⟩
      = [⟨"L1", some "Ann", some "a@x.com", none, some "T1"⟩] :=
  (C6_mark_seen_idempotent_insert
      [⟨"L1", some "Ann", some "a@x.com", none, some "T1"⟩]
      ⟨some "L1", some "Bob", some "b@y.com", some "7", some "T2"⟩
      "L1").2.2 rfl (by decide)

/-- Claim C1 (code bug, failing input): the pipeline stores a record whose
email field is present but empty (`values = [""]`) with `email = ''`, and a
later record that lacks an email queries `is_seen` with the empty string,
which matches that row by plain SQL equality — so record `L2`, sharing no
real identity value with `L1`, is reported seen and dropped, solely because
both emails are empty.  This evaluates the code at the failing input. -/
theorem C1_empty_value_false_match :
    processRun []
      [⟨some "L1", none, [⟨some "email", [some ""]⟩,
          ⟨some "phone", [some "123"]⟩]⟩,
       ⟨some "L2", none, [⟨some "phone", [some "999"]⟩]⟩]
      = ([⟨"L1", none, some "", some "123", none⟩],
         [⟨some "L1", none, some "", some "123", none⟩]) ∧
    is_seen [⟨"L1", none, some "", some "123", none⟩] (some "L2") "" "999"
      = true := by
  decide

/-- Claim C3: for flat records `a` and `b` with the same non-empty email,
where `a` has a truthy id, is not yet seen and is processed first, the
dedup step ingests `a` and then skips `b` as a duplicate regardless of its
id or phone — only `a`'s row is added to the store (first-seen-wins under
the OR-based identity match). -/
theorem C3_first_seen_wins (s : Store) (acc : List FlatRecord)
    (a b : FlatRecord) (e ia : String)
    (hae : a.email = some e) (hbe : b.email = some e) (_he : e ≠ "")
    (hia : a.lead_id = some ia) (hia' : ia ≠ "")
    (_hdiff : b.lead_id ≠ a.lead_id)
    (hunseen : is_seen s a.lead_id (pyStr a.email) (pyStr a.phone) = false) :
    dedupStep (dedupStep (s, acc) a) b
      = (s ++ [⟨ia, a.name, a.email, a.phone, a.created_time⟩], acc ++ [a]) := by
  have h1 : dedupStep (s, acc) a
      = (s ++ [⟨ia, a.name, a.email, a.phone, a.created_time⟩], acc ++ [a]) := by
    unfold dedupStep
    rw [if_neg (by simp [hunseen])]
    rw [markSeen_insert hia hia' hunseen]
  rw [h1]
  unfold dedupStep
  rw [if_pos]
  apply List.any_eq_true.mpr
  refine ⟨⟨ia, a.name, a.email, a.phone, a.created_time⟩, by simp, ?_⟩
  simp [rowMatches, hae, hbe, pyStr]

/-- Witness for C3: records `A1` and `B2` share email `e@x`; `B2` is
dropped and only `A1`'s row is stored. -/
theorem C3_first_seen_wins_witness :
    dedupStep (dedupStep ([], [])
        ⟨some "A1", some "Ann", some "e@x", none, some "T"⟩)
        ⟨some "B2", none, some "e@x", some "9", none⟩
      = ([⟨"A1", some "Ann", some "e@x", none, some "T"⟩],
         [⟨some "A1", some "Ann", some "e@x", none, some "T"⟩]) :=
  C3_first_seen_wins [] [] ⟨some "A1", some "Ann", some "e@x", none, some "T"⟩
    ⟨some "B2", none, some "e@x", some "9", none⟩ "e@x" "A1"
    rfl rfl (by decide) rfl (by decide) (by decide) (by decide)

/-- Claim C10: a raw record whose id is absent but which normalizes (has an
email or phone) and matches no stored identity is appended to the new
records while the store is left unchanged (`mark_seen` silently no-ops on
the missing id), so an identical second run emits it again. -/
theorem C10_missing_id_reemitted (db : Store) (raw : RawRecord)
    (n : FlatRecord) (hid : raw.id = none)
    (hn : normalize_lead raw = some n)
    (hs : is_seen db none (pyStr n.email) (pyStr n.phone) = false) :
    processRun db [raw] = (db, [n]) ∧
    processRun (processRun db [raw]).1 [raw] = (db, [n]) := by
  have hlid : n.lead_id = none := by rw [normalize_lead_lead_id hn, hid]
  have h1 : processRun db [raw] = (db, [n]) := by
    unfold processRun
    rw [List.foldl_cons, List.foldl_nil]
    unfold processOne dedupStep
    rw [hn]
    dsimp only
    rw [hlid, if_neg (by simp [hs])]
    simp [mark_seen, hlid]
  refine ⟨h1, ?_⟩
  rw [h1]
  exact h1

/-- Witness for C10: a record with no id and email `w@x` is emitted by both
runs and never stored. -/
theorem C10_missing_id_reemitted_witness :
    processRun [] [⟨none, none, [⟨some "email", [some "w@x"]⟩]⟩]
      = ([], [⟨none, none, some "w@x", none, none⟩]) :=
  (C10_missing_id_reemitted [] ⟨none, none, [⟨some "email", [some "w@x"]⟩]⟩
    ⟨none, none, some "w@x", none, none⟩ rfl (by decide) (by decide)).1

/-- Counterexample to claim C2 as stated: a record with an email but no id
is never stored (`mark_seen` silently no-ops on a missing id), so a second
run over the same single-record source and the resulting store emits it
again — the second run's new-records list is not zero records. -/
theorem C2_missing_id_counterexample :
    (processRun
        (processRun [] [⟨none, none, [⟨some "email", [some "a@x.com"]⟩]⟩]).1
        [⟨none, none, [⟨some "email", [some "a@x.com"]⟩]⟩]).2
      = [⟨none, none, some "a@x.com", none, none⟩] ∧
    (processRun
        (processRun [] [⟨none, none, [⟨some "email", [some "a@x.com"]⟩]⟩]).1
        [⟨none, none, [⟨some "email", [some "a@x.com"]⟩]⟩]).2 ≠ [] := by
  decide

/-- Claim C2 (amended): running the pipeline twice against the same source
data and the same identity store yields zero new records on the second run,
provided every raw record either fails normalization or normalizes with a
present, non-empty id (records without an id are never durably marked and
are re-emitted, see the counterexample). -/
theorem C2_second_run_empty (s0 : Store) (rs : List RawRecord)
    (h : rs.all idOK = true) :
    (processRun (processRun s0 rs).1 rs).2 = [] := by
  unfold processRun
  rw [foldl_processOne_fst rs s0 []]
  rw [run_all_seen rs _ [] (good_after_run rs s0 h)]

/-- Witness for C2 (amended): a one-record source with id `L1` yields zero
new records on its second run. -/
theorem C2_second_run_empty_witness :
    ([⟨some "L1", none, [⟨some "email", [some "a@x.com"]⟩]⟩]
        : List RawRecord).all idOK = true ∧
    (processRun
        (processRun [] [⟨some "L1", none, [⟨some "email", [some "a@x.com"]⟩]⟩]).1
        [⟨some "L1", none, [⟨some "email", [some "a@x.com"]⟩]⟩]).2 = [] :=
  ⟨by decide, C2_second_run_empty [] _ (by decide)⟩

/-- Claim C7: the normalizer rejects exactly when both the flattened email
field and the flattened phone chain are empty or absent (Python-falsy) —
this gate is the sole source of rejection and does not look at the id, the
created time or the name fields (second conjunct: rejection is invariant
under replacing id and created time) — and a raw record with only a phone
field produces a flat record whose email is absent. -/
theorem C7_rejection_gate (raw : RawRecord) (idv ct : Option String)
    (v : String) (hv : v ≠ "") :
    (normalize_lead raw = none ↔
      (truthyOpt (fieldsGet raw.field_data "email") = false ∧
        truthyOpt (pyOr (pyOr (fieldsGet raw.field_data "phone")
            (fieldsGet raw.field_data "phone_number"))
          (fieldsGet raw.field_data "phone_number_ext")) = false)) ∧
    (normalize_lead ⟨idv, ct, raw.field_data⟩ = none
      ↔ normalize_lead raw = none) ∧
    normalize_lead ⟨idv, ct, [⟨some "phone", [some v]⟩]⟩
      = some ⟨idv, none, none, some v, ct⟩ := by
  refine ⟨?_, ?_, ?_⟩
  · by_cases h1 : truthyOpt (fieldsGet raw.field_data "email") = true <;>
      by_cases h2 : truthyOpt (pyOr (pyOr (fieldsGet raw.field_data "phone")
            (fieldsGet raw.field_data "phone_number"))
          (fieldsGet raw.field_data "phone_number_ext")) = true <;>
      simp [normalize_lead, h1, h2]
  · by_cases h1 : truthyOpt (fieldsGet raw.field_data "email") = true <;>
      by_cases h2 : truthyOpt (pyOr (pyOr (fieldsGet raw.field_data "phone")
            (fieldsGet raw.field_data "phone_number"))
          (fieldsGet raw.field_data "phone_number_ext")) = true <;>
      simp [normalize_lead, h1, h2]
  · have he : fieldsGet [⟨some "phone", [some v]⟩] "email" = none := rfl
    have hfn : fieldsGet [⟨some "phone", [some v]⟩] "full_name" = none := rfl
    have hf1 : fieldsGet [⟨some "phone", [some v]⟩] "first_name" = none := rfl
    have hl1 : fieldsGet [⟨some "phone", [some v]⟩] "last_name" = none := rfl
    have hp : fieldsGet [⟨some "phone", [some v]⟩] "phone" = some v := rfl
    have hpn : fieldsGet [⟨some "phone", [some v]⟩] "phone_number" = none := rfl
    have hpe : fieldsGet [⟨some "phone", [some v]⟩] "phone_number_ext"
        = none := rfl
    have hcomb : pyStrip (pyStr none ++ " " ++ pyStr none) = "" := rfl
    simp [normalize_lead, he, hfn, hf1, hl1, hp, hpn, hpe, hcomb,
      truthyOpt, pyOr, hv]

/-- Witness for C7: a record carrying only phone `5` normalizes with an
absent email, and the gate conjuncts hold for it. -/
theorem C7_rejection_gate_witness :
    normalize_lead ⟨some "L9", some "T", [⟨some "phone", [some "5"]⟩]⟩
      = some ⟨some "L9", none, none, some "5", some "T"⟩ :=
  (C7_rejection_gate ⟨some "L9", some "T", [⟨some "phone", [some "5"]⟩]⟩
    (some "L9") (some "T") "5" (by decide)).2.2

/-! ## Helper lemmas about the fetch loop -/

theorem fetchPage_err500_skip (m : Nat) :
    ∀ (j a : Nat) (rest : List Attempt), a + j ≤ m →
      fetchPage m a (List.replicate j err500 ++ rest)
        = fetchPage m (a + j) rest := by
  intro j
  induction j with
  | zero => intro a rest _; simp
  | succ j ih =>
    intro a rest h
    rw [List.replicate_succ, List.cons_append]
    show fetchPage m a (Attempt.resp ⟨500, none, ⟨[], none⟩⟩ :: _) = _
    rw [fetchPage]
    rw [if_pos (by norm_num), if_pos (by omega)]
    rw [ih (a + 1) rest (by omega)]
    congr 1
    omega

theorem fetchPage_rate429_fatal (m : Nat) :
    ∀ (k a : Nat) (rest : List Attempt), a + k = m + 1 → 1 ≤ k →
      fetchPage m a (List.replicate k rate429 ++ rest) = .fatal := by
  intro k
  induction k with
  | zero => intro a rest _ h1; omega
  | succ k ih =>
    intro a rest h _
    rw [List.replicate_succ, List.cons_append]
    show fetchPage m a (Attempt.resp ⟨429, none, ⟨[], none⟩⟩ :: _) = _
    rw [fetchPage]
    rw [if_neg (by norm_num), if_pos (by norm_num)]
    rcases Nat.eq_zero_or_pos k with hk | hk
    · subst hk
      rw [if_pos (by omega)]
    · rw [if_neg (by omega)]
      exact ih (a + 1) rest (by omega) hk

theorem fetchRun_err500_skip (m : Nat) :
    ∀ (j a : Nat) (acc : List (List RawRecord)) (rest : List Attempt),
      a + j ≤ m →
      fetchRun m a acc (List.replicate j err500 ++ rest)
        = fetchRun m (a + j) acc rest := by
  intro j
  induction j with
  | zero => intro a acc rest _; simp
  | succ j ih =>
    intro a acc rest h
    rw [List.replicate_succ, List.cons_append]
    show fetchRun m a acc (Attempt.resp ⟨500, none, ⟨[], none⟩⟩ :: _) = _
    rw [fetchRun]
    rw [if_pos (by norm_num), if_pos (by omega)]
    rw [ih (a + 1) acc rest (by omega)]
    congr 1
    omega

theorem fetchRun_ok_pages (m : Nat) :
    ∀ (qs : List PageData) (pl : PageData) (a : Nat)
      (acc : List (List RawRecord)),
      (∀ q ∈ qs, truthyOpt q.next = true) → pl.next = none →
      fetchRun m a acc ((qs ++ [pl]).map okAttempt)
        = .done (acc ++ (qs ++ [pl]).map PageData.data) := by
  intro qs
  induction qs with
  | nil =>
    intro pl a acc _ hpl
    show fetchRun m a acc [Attempt.resp ⟨200, none, pl⟩] = _
    rw [fetchRun]
    rw [if_neg (by norm_num), if_neg (by norm_num), if_neg (by norm_num),
      if_neg (by simp [hpl, truthyOpt])]
    simp
  | cons q qs ih =>
    intro pl a acc hq hpl
    rw [List.cons_append, List.map_cons]
    show fetchRun m a acc (Attempt.resp ⟨200, none, q⟩ :: _) = _
    rw [fetchRun]
    rw [if_neg (by norm_num), if_neg (by norm_num), if_neg (by norm_num),
      if_pos (by simpa using hq q (List.mem_cons_self q qs))]
    rw [ih pl 0 (acc ++ [q.data])
      (fun r hr => hq r (List.mem_cons_of_mem q hr)) hpl]
    simp

end Leads

namespace Leads

/-! ## Claim theorems: fetch loop -/

/-- Counterexample to claim C4 as stated: with `max_retries = 1`, one 500
followed by a single 429 aborts the fetch — the 429 retry count is charged
against the same `attempt` counter as the generic failure, so the bound is
exceeded although only one 429 was ever seen.  A loop that tracks the 429
count separately (`fetchPageSep`, modelled from the spec's words) yields
the page on the very same input. -/
theorem C4_separate_counter_counterexample :
    fetchPage 1 0 [err500, rate429, okAttempt ⟨[], none⟩] = .fatal ∧
    fetchPageSep 1 0 0 [err500, rate429, okAttempt ⟨[], none⟩]
      = .yield ⟨[], none⟩ [] := by
  decide

/-- Claim C4 (amended): the retry count for 429 responses is tracked in the
same single counter as generic transient failures, both bounded by the same
configured maximum; any mix of `j` server errors and `k` 429 responses with
`j + k = max_retries + 1` aborts the fetch with a fatal error, the final
429 pushing the shared counter past the bound. -/
theorem C4_shared_retry_counter (m j k : Nat) (rest : List Attempt)
    (hjk : j + k = m + 1) (hj : j ≤ m) :
    fetchPage m 0 (List.replicate j err500 ++ (List.replicate k rate429 ++ rest))
      = .fatal := by
  rw [fetchPage_err500_skip m j 0 _ (by omega), Nat.zero_add]
  exact fetchPage_rate429_fatal m k j rest (by omega) (by omega)

/-- Witness for C4 (amended): with `max_retries = 2`, one 500 and two 429s
abort the fetch. -/
theorem C4_shared_retry_counter_witness :
    fetchPage 2 0 (List.replicate 1 err500 ++ (List.replicate 2 rate429 ++ []))
      = .fatal :=
  C4_shared_retry_counter 2 1 2 [] (by decide) (by decide)

/-- Claim C5: `max_retries + 1` consecutive 500 responses on the same page
abort the fetch with a fatal error and no batch is yielded for that page,
while at most `max_retries` consecutive 500s followed by a success still
yield the page's batch. -/
theorem C5_retry_bound (m k : Nat) (p : PageData) (hk : k ≤ m)
    (hp : p.next = none) :
    fetchLoop m (List.replicate (m + 1) err500) = .fatal [] ∧
    fetchLoop m (List.replicate k err500 ++ [okAttempt p])
      = .done [p.data] := by
  constructor
  · unfold fetchLoop
    rw [List.replicate_succ']
    rw [fetchRun_err500_skip m m 0 [] [err500] (by omega), Nat.zero_add]
    show fetchRun m m [] (Attempt.resp ⟨500, none, ⟨[], none⟩⟩ :: []) = _
    rw [fetchRun]
    rw [if_pos (by norm_num), if_neg (by omega)]
  · unfold fetchLoop
    rw [fetchRun_err500_skip m k 0 [] [okAttempt p] (by omega), Nat.zero_add]
    have := fetchRun_ok_pages m [] p k [] (by simp) hp
    simpa using this

/-- Witness for C5: with `max_retries = 2`, three 500s are fatal with
nothing yielded, and one 500 followed by a success still yields the
page. -/
theorem C5_retry_bound_witness :
    fetchLoop 2 (List.replicate 3 err500) = .fatal [] ∧
    fetchLoop 2 (List.replicate 1 err500 ++ [okAttempt ⟨[], none⟩])
      = .done [[]] :=
  C5_retry_bound 2 1 ⟨[], none⟩ (by decide) (by decide)

/-- Claim C8: a paged source whose pages all answer successfully, where
every page but the last carries a truthy `paging.next` and the final page
has none, makes the fetch loop yield exactly one batch per page, in order,
and then terminate. -/
theorem C8_pagination_batches (m : Nat) (qs : List PageData) (pl : PageData)
    (hq : ∀ q ∈ qs, truthyOpt q.next = true) (hpl : pl.next = none) :
    fetchLoop m ((qs ++ [pl]).map okAttempt)
      = .done ((qs ++ [pl]).map PageData.data) := by
  unfold fetchLoop
  have := fetchRun_ok_pages m qs pl 0 [] hq hpl
  simpa using this

/-- Witness for C8: two pages, the first with a next link, the second
without, yield exactly their two batches. -/
theorem C8_pagination_batches_witness :
    fetchLoop 3 ((([⟨[⟨some "L1", none, []⟩], some "u2"⟩]
        ++ [⟨[⟨some "L2", none, []⟩], none⟩] : List PageData)).map okAttempt)
      = .done [[⟨some "L1", none, []⟩], [⟨some "L2", none, []⟩]] :=
  C8_pagination_batches 3
    ([⟨[⟨some "L1", none, []⟩], some "u2"⟩] : List PageData)
    (⟨[⟨some "L2", none, []⟩], none⟩ : PageData) (by decide) (by decide)

end Leads

